import Mathlib

/-
Verification of the PostgresSQL MCP repository: a shallow embedding of
`src/PostgresSQLMCPServer/mcp_server.py` (server startup, session context and
tool handlers) and `src/PostgresMCP/PostgresSQLMCPClient/mcp_client.py`
(client environment check), with theorems settling the spec's claims.

External library calls (the legion `QueryRunner` backend, the MCP transport)
are modelled as oracle functions supplied to each handler; Python's `json`
module is modelled by an executable parser/serializer over a `PyJson` value
type.  Python exceptions are modelled with `Except String`.
-/

set_option autoImplicit false

namespace MCPServer

/-- Model of a Python value as produced by `json.loads` and consumed by
`json.dumps` (`None`/`bool`/`int`/`str`/`list`/`dict`).  Floats do not occur
in the code paths under verification and are omitted. -/
inductive PyJson where
  | null
  | bool (b : Bool)
  | num (n : Int)
  | str (s : String)
  | arr (elems : List PyJson)
  | obj (entries : List (String × PyJson))
deriving Repr

/-- Python truthiness (`bool(v)`) of a `PyJson` value: `None`, `False`, `0`,
`""`, `[]` and `{}` are falsy, everything else truthy.  Used to model
`if not db_config`. -/
def pyTruthy : PyJson → Bool
  | .null => false
  | .bool b => b
  | .num n => n != 0
  | .str s => s ≠ ""
  | .arr l => !l.isEmpty
  | .obj l => !l.isEmpty

/-- Python truthiness of an optional string, modelling `if not x` on a value
that is either `None` (absent) or a `str`. -/
def pyTruthyOptStr : Option String → Bool
  | none => false
  | some s => s ≠ ""

/-- Skip JSON whitespace, as `json.loads` does between tokens. -/
def skipWs : List Char → List Char
  | [] => []
  | c :: cs => if c = ' ' ∨ c = '\t' ∨ c = '\n' ∨ c = '\r' then skipWs cs else c :: cs

/-- Parse the contents of a JSON string literal after the opening quote,
returning the decoded string and the remaining input.  Common escapes are
supported; `\uXXXX` escapes are not needed by any claim and are rejected. -/
def parseStringChars : List Char → Except String (String × List Char)
  | [] => .error "unterminated string"
  | c :: cs =>
    if c = '"' then .ok ("", cs)
    else if c = '\\' then
      match cs with
      | [] => .error "unterminated escape"
      | e :: cs2 =>
        let dec : Except String Char :=
          if e = '"' then .ok '"'
          else if e = '\\' then .ok '\\'
          else if e = '/' then .ok '/'
          else if e = 'n' then .ok '\n'
          else if e = 't' then .ok '\t'
          else if e = 'r' then .ok '\r'
          else .error "unsupported escape"
        match dec with
        | .error m => .error m
        | .ok ch =>
          match parseStringChars cs2 with
          | .error m => .error m
          | .ok (s, rest) => .ok (String.mk (ch :: s.data), rest)
    else
      match parseStringChars cs with
      | .error m => .error m
      | .ok (s, rest) => .ok (String.mk (c :: s.data), rest)

/-- Split a leading run of decimal digits from the input. -/
def splitDigits : List Char → List Char × List Char
  | [] => ([], [])
  | c :: cs =>
    if c.isDigit then
      let (ds, rest) := splitDigits cs
      (c :: ds, rest)
    else ([], c :: cs)

/-- Numeric value of a digit run. -/
def digitsToNat (ds : List Char) : Nat :=
  ds.foldl (fun acc c => acc * 10 + (c.toNat - 48)) 0

mutual

/-- Recursive-descent JSON value parser modelling `json.loads`. The `fuel`
argument bounds recursion depth; `json_loads` supplies more than enough fuel
for its input, so exhaustion never occurs on inputs the code handles. -/
def parseValue : Nat → List Char → Except String (PyJson × List Char)
  | 0, _ => .error "recursion limit"
  | fuel + 1, input =>
    match skipWs input with
    | [] => .error "expecting value"
    | '"' :: cs =>
      match parseStringChars cs with
      | .error m => .error m
      | .ok (s, rest) => .ok (.str s, rest)
    | '\x7b' :: cs =>
      match skipWs cs with
      | '\x7d' :: rest => .ok (.obj [], rest)
      | other =>
        match parseObjRest fuel other with
        | .error m => .error m
        | .ok (kvs, rest) => .ok (.obj kvs, rest)
    | '[' :: cs =>
      match skipWs cs with
      | ']' :: rest => .ok (.arr [], rest)
      | other =>
        match parseArrRest fuel other with
        | .error m => .error m
        | .ok (xs, rest) => .ok (.arr xs, rest)
    | 't' :: 'r' :: 'u' :: 'e' :: rest => .ok (.bool true, rest)
    | 'f' :: 'a' :: 'l' :: 's' :: 'e' :: rest => .ok (.bool false, rest)
    | 'n' :: 'u' :: 'l' :: 'l' :: rest => .ok (.null, rest)
    | '-' :: cs =>
      match splitDigits cs with
      | ([], _) => .error "expecting value"
      | (ds, rest) => .ok (.num (-(Int.ofNat (digitsToNat ds))), rest)
    | c :: cs =>
      if c.isDigit then
        match splitDigits (c :: cs) with
        | (ds, rest) => .ok (.num (Int.ofNat (digitsToNat ds)), rest)
      else .error "expecting value"

/-- Parse the remaining `"key": value` entries of a JSON object (the input
starts at a key). -/
def parseObjRest : Nat → List Char → Except String (List (String × PyJson) × List Char)
  | 0, _ => .error "recursion limit"
  | fuel + 1, input =>
    match skipWs input with
    | '"' :: cs =>
      match parseStringChars cs with
      | .error m => .error m
      | .ok (k, rest1) =>
        match skipWs rest1 with
        | ':' :: rest2 =>
          match parseValue fuel rest2 with
          | .error m => .error m
          | .ok (v, rest3) =>
            match skipWs rest3 with
            | ',' :: rest4 =>
              match parseObjRest fuel rest4 with
              | .error m => .error m
              | .ok (kvs, rest5) => .ok ((k, v) :: kvs, rest5)
            | '\x7d' :: rest4 => .ok ([(k, v)], rest4)
            | _ => .error "expecting comma or end of object"
        | _ => .error "expecting colon"
    | _ => .error "expecting property name"

/-- Parse the remaining elements of a JSON array (the input starts at a
value). -/
def parseArrRest : Nat → List Char → Except String (List PyJson × List Char)
  | 0, _ => .error "recursion limit"
  | fuel + 1, input =>
    match parseValue fuel input with
    | .error m => .error m
    | .ok (v, rest1) =>
      match skipWs rest1 with
      | ',' :: rest2 =>
        match parseArrRest fuel rest2 with
        | .error m => .error m
        | .ok (xs, rest3) => .ok (v :: xs, rest3)
      | ']' :: rest2 => .ok ([v], rest2)
      | _ => .error "expecting comma or end of array"

end

/-- Model of Python's `json.loads`: parse a complete JSON document, rejecting
empty input and trailing garbage (both raise `json.JSONDecodeError` in
Python, which the embedding renders as `Except.error`). -/
def json_loads (s : String) : Except String PyJson :=
  match parseValue (2 * s.length + 16) s.data with
  | .error m => .error m
  | .ok (v, rest) =>
    if skipWs rest = [] then .ok v else .error "extra data"

/-- Escape one character for a JSON string literal as `json.dumps` does. -/
def escapeJsonChar (c : Char) : String :=
  if c = '"' then "\\\""
  else if c = '\\' then "\\\\"
  else if c = '\n' then "\\n"
  else if c = '\t' then "\\t"
  else if c = '\r' then "\\r"
  else String.mk [c]

/-- Escape a string for a JSON string literal. -/
def escapeJsonString (s : String) : String :=
  String.join (s.data.map escapeJsonChar)

mutual

/-- Model of Python's `json.dumps` on a `PyJson` value.  The server calls
`json.dumps(output, indent=2)`; the inserted indentation whitespace is
semantically irrelevant to every claim and is modelled with single-space
separators. -/
def json_dumps : PyJson → String
  | .null => "null"
  | .bool true => "true"
  | .bool false => "false"
  | .num n => toString n
  | .str s => "\"" ++ escapeJsonString s ++ "\""
  | .arr xs => "[" ++ String.intercalate ", " (json_dumps_list xs) ++ "]"
  | .obj kvs => "\x7b" ++ String.intercalate ", " (json_dumps_entries kvs) ++ "\x7d"

/-- Serialize the elements of a JSON array. -/
def json_dumps_list : List PyJson → List String
  | [] => []
  | x :: xs => json_dumps x :: json_dumps_list xs

/-- Serialize the entries of a JSON object. -/
def json_dumps_entries : List (String × PyJson) → List String
  | [] => []
  | (k, v) :: kvs =>
    ("\"" ++ escapeJsonString k ++ "\": " ++ json_dumps v) :: json_dumps_entries kvs

end

/-- Model of Python's `str(cell)` on the scalar values that appear as row
cells (`None`, booleans, ints, strings).  Container cells do not occur in
the claims; for them the JSON rendering stands in for Python's `repr`. -/
def pyStr : PyJson → String
  | .null => "None"
  | .bool true => "True"
  | .bool false => "False"
  | .num n => toString n
  | .str s => s
  | v => json_dumps v

/-- The inputs that `init_query_runner` reads: the optional `--db-type` and
`--db-config` CLI flags (absent flags are `None` since both are declared with
`required=False`) and the optional `DB_TYPE` / `DB_CONFIG` environment
variables (`none` = variable unset). -/
structure StartupEnv where
  cli_db_type : Option String
  cli_db_config : Option String
  env_db_type : Option String
  env_db_config : Option String

/-- Model of Python's `os.getenv(name, default)`: the variable's value when
set (even when set to the empty string), else the default. -/
def os_getenv (v : Option String) (default : String) : String :=
  v.getD default

/-- The database type after the fallback chain of `init_query_runner`:
`args.db_type` when truthy, else `os.getenv("DB_TYPE", "pg")`.  Note the
default `"pg"`: a wholly absent database kind does not stay empty. -/
def effective_db_type (env : StartupEnv) : String :=
  if pyTruthyOptStr env.cli_db_type then env.cli_db_type.getD ""
  else os_getenv env.env_db_type "pg"

/-- The database configuration string after the fallback chain of
`init_query_runner`: `args.db_config` when truthy, else
`os.getenv("DB_CONFIG", "")`. -/
def effective_db_config_str (env : StartupEnv) : String :=
  if pyTruthyOptStr env.cli_db_config then env.cli_db_config.getD ""
  else os_getenv env.env_db_config ""

/-- Shallow embedding of `init_query_runner` in `mcp_server.py`: take
`--db-type` / `--db-config` when truthy, else fall back to
`os.getenv("DB_TYPE", "pg")` / `os.getenv("DB_CONFIG", "")`; run the config
string through `json.loads` (whose failure propagates as an exception); then
raise `ValueError` when the database type or the parsed config is falsy.
On success it returns the `QueryRunner(db_type, configuration)` arguments;
the external constructor itself is modelled as succeeding (the connectivity
test happens later, inside the server lifespan). -/
def init_query_runner (env : StartupEnv) : Except String (String × PyJson) :=
  let db_type := effective_db_type env
  let db_config_str := effective_db_config_str env
  match json_loads db_config_str with
  | .error m => .error m
  | .ok db_config =>
    if db_type = "" ∨ pyTruthy db_config = false then
      .error "Database type and configuration are required"
    else
      .ok (db_type, db_config)

/-- Outcome of the module-level `try: query_runner = init_query_runner()`
block: either the process exits (with a status code, having printed the usage
text) before any MCP session can be accepted, or the server holds a
configured query runner and proceeds to serve. -/
inductive StartupResult where
  | exited (code : Nat) (usage_printed : Bool)
  | running (db_type : String) (db_config : PyJson)
deriving Repr

/-- Shallow embedding of the module-level `try/except` around
`init_query_runner`: on any exception the code prints the error and the usage
text and calls `sys.exit(1)`; otherwise the query runner is bound and the
module goes on to create the `FastMCP` server. -/
def server_startup (env : StartupEnv) : StartupResult :=
  match init_query_runner env with
  | .error _ => .exited 1 true
  | .ok (db_type, db_config) => .running db_type db_config

/-- The environment variables read by `mcp_client.py` (`none` = unset). -/
structure ClientEnv where
  openai_model_name : Option String
  openai_api_base : Option String
  openai_api_key : Option String

/-- What the client module has done by the time it would launch the server:
either it raised `ValueError` at the env check (before `server_params`, the
model, and `run_agent` exist, so before any subprocess or session), or it
proceeds holding the three credential strings. -/
def client_startup (env : ClientEnv) :
    Except String (String × String × String) :=
  if (pyTruthyOptStr env.openai_model_name &&
      pyTruthyOptStr env.openai_api_base &&
      pyTruthyOptStr env.openai_api_key) = false then
    .error "Missing required environment variables. Please check your .env file."
  else
    .ok (env.openai_model_name.getD "", env.openai_api_base.getD "",
         env.openai_api_key.getD "")

/-- One column descriptor dictionary from a backend result.  Per the query
runner's contract the `name` and `friendly_name` keys, when present, hold
strings; `none` models an absent key, so `col.get('name', '')` is
`name.getD ""` and `col.get('friendly_name', col.get('name', ''))` is
`friendly_name.getD (name.getD "")`. -/
structure Col where
  name : Option String
  friendly_name : Option String
deriving Repr

/-- A result row: a Python dictionary mapping column names to cell values. -/
def Row := List (String × PyJson)

/-- Model of `row_dict.get(key)`: the stored value, or Python `None` when
the key is absent (indistinguishable from a stored SQL NULL, exactly as in
Python). -/
def row_get (r : Row) (key : String) : PyJson :=
  match List.lookup key r with
  | some v => v
  | none => PyJson.null

/-- The raw dictionary returned by `query_runner.run_query`; `none` fields
model absent keys, matching the code's `result.get('columns', [])` and
`result.get('rows', [])` defaults. -/
structure RawResult where
  columns : Option (List Col)
  rows : Option (List Row)

/-- Oracle for the external legion `QueryRunner` backend: each operation
either returns its library-defined value or raises (modelled as
`Except.error` carrying `str(e)`). -/
structure QueryRunner where
  run_query : String → Except String RawResult
  get_schema : Except String PyJson
  get_table_columns : String → Except String PyJson
  get_table_types : String → Except String PyJson

/-- The per-session `DbContext` dataclass (minus the query-runner reference,
which the handlers receive explicitly): last query, last raw result, and the
query history list, which `__post_init__` initializes to `[]`. -/
structure DbContext where
  last_query : Option String := none
  last_result : Option RawResult := none
  query_history : List String := []

/-- The dictionary assembled by `_execute_and_get_results`. -/
structure ProcessedResult where
  column_names : List String
  columns : List Col
  rows : List (List PyJson)
  raw_rows : List Row
  row_count : Nat

/-- Shallow embedding of `_execute_and_get_results(query, ctx)`: run the
query on the backend (an exception here propagates to the caller and, since
it is raised before any assignment, leaves the context untouched); then set
`last_query` / `last_result`, append the query to the history, and build the
column names (friendly name, falling back to raw name, falling back to `""`)
and the row lists.  State passing makes the in-place context mutation
explicit: the function returns the updated context alongside the result. -/
def execute_and_get_results (qr : QueryRunner) (query : String)
    (ctx : DbContext) : Except String (ProcessedResult × DbContext) :=
  match qr.run_query query with
  | .error e => .error e
  | .ok result =>
    let ctx' : DbContext :=
      { last_query := some query
        last_result := some result
        query_history := ctx.query_history ++ [query] }
    let columns := result.columns.getD []
    let column_names := columns.map
      (fun col => col.friendly_name.getD (col.name.getD ""))
    let rows := result.rows.getD []
    let row_count := rows.length
    let processed_rows := rows.map
      (fun row_dict => columns.map (fun col => row_get row_dict (col.name.getD "")))
    .ok ({ column_names := column_names
           columns := columns
           rows := processed_rows
           raw_rows := rows
           row_count := row_count }, ctx')

/-- Shallow embedding of the `execute_query` tool: render the processed
result as a markdown table (header, `---` separator, at most the first 10
rows via `result['rows'][:10]`, and — when `row_count > 10` — the trailing
`"... and K more rows (total: N)"` note); any exception is caught and turned
into an `"Error executing query: ..."` string, leaving the context as it
was. -/
def execute_query (qr : QueryRunner) (query : String) (ctx : DbContext) :
    String × DbContext :=
  match execute_and_get_results qr query ctx with
  | .error e => ("Error executing query: " ++ e, ctx)
  | .ok (result, ctx') =>
    let header := String.intercalate " | " result.column_names
    let separator :=
      String.intercalate " | " (List.replicate result.column_names.length "---")
    let table_rows := (result.rows.take 10).map
      (fun row => String.intercalate " | " (row.map pyStr))
    let result_table :=
      header ++ "\n" ++ separator ++ "\n" ++ String.intercalate "\n" table_rows
    let n := result.row_count
    let result_table :=
      if n > 10 then
        result_table ++ "\n\n... and " ++ toString (n - 10) ++
          " more rows (total: " ++ toString n ++ ")"
      else result_table
    (result_table, ctx')

/-- JSON form of a raw row dictionary, as `json.dumps` sees it. -/
def rowToJson (r : Row) : PyJson := PyJson.obj r

/-- Shallow embedding of the `execute_query_json` tool: same execution path
as `execute_query`, but the output object carries the friendly column names,
the original (complete, untruncated) row dictionaries, and the row count,
serialized with `json.dumps`. -/
def execute_query_json (qr : QueryRunner) (query : String) (ctx : DbContext) :
    String × DbContext :=
  match execute_and_get_results qr query ctx with
  | .error e => ("Error executing query: " ++ e, ctx)
  | .ok (result, ctx') =>
    let output := PyJson.obj
      [("columns", PyJson.arr (result.column_names.map PyJson.str)),
       ("rows", PyJson.arr (result.raw_rows.map rowToJson)),
       ("row_count", PyJson.num (Int.ofNat result.row_count))]
    (json_dumps output, ctx')

/-- Shallow embedding of the `get_query_history` tool: bullet lines when the
history list is truthy (non-empty), else the fixed fallback message.  The
handler only reads the context. -/
def get_query_history (ctx : DbContext) : String :=
  if !ctx.query_history.isEmpty then
    "Query history:\n" ++
      String.intercalate "\n" (ctx.query_history.map (fun query => "- " ++ query))
  else
    "No queries have been executed yet."

/-- Shallow embedding of the `schema://all` resource handler `get_schema`:
`json.dumps` of the backend schema, with exceptions converted to an
`"Error getting schema: ..."` string. -/
def get_schema (qr : QueryRunner) : String :=
  match qr.get_schema with
  | .ok schema => json_dumps schema
  | .error e => "Error getting schema: " ++ e

/-- Shallow embedding of the `get_table_columns` tool. -/
def get_table_columns (qr : QueryRunner) (table_name : String) : String :=
  match qr.get_table_columns table_name with
  | .ok columns => json_dumps columns
  | .error e => "Error getting columns for table " ++ table_name ++ ": " ++ e

/-- Shallow embedding of the `get_table_types` tool. -/
def get_table_types (qr : QueryRunner) (table_name : String) : String :=
  match qr.get_table_types table_name with
  | .ok types => json_dumps types
  | .error e => "Error getting types for table " ++ table_name ++ ": " ++ e

/-! Derived views of a raw backend result, used to state the claims about
`execute_query`'s rendering.  Each mirrors one expression of
`_execute_and_get_results` / `execute_query`. -/

/-- The header names: friendly name, falling back to raw name, falling back
to the empty string, in the backend's declared column order. -/
def column_names_of (result : RawResult) : List String :=
  (result.columns.getD []).map (fun col => col.friendly_name.getD (col.name.getD ""))

/-- The markdown header line of `execute_query`'s output. -/
def header_of (result : RawResult) : String :=
  String.intercalate " | " (column_names_of result)

/-- The markdown separator line of `execute_query`'s output. -/
def separator_of (result : RawResult) : String :=
  String.intercalate " | " (List.replicate (column_names_of result).length "---")

/-- One rendered data row: the cells in declared column order, each passed
through `str`, joined with `" | "`. -/
def render_row (columns : List Col) (row_dict : Row) : String :=
  String.intercalate " | "
    ((columns.map (fun col => row_get row_dict (col.name.getD ""))).map pyStr)

/-- All data rows of a result, rendered. -/
def rendered_rows (result : RawResult) : List String :=
  (result.rows.getD []).map (render_row (result.columns.getD []))

/-! Concrete fixtures used by counterexamples and witnesses. -/

/-- A backend on which every operation raises with message `"boom"`. -/
def qrFail : QueryRunner :=
  { run_query := fun _ => .error "boom"
    get_schema := .error "boom"
    get_table_columns := fun _ => .error "boom"
    get_table_types := fun _ => .error "boom" }

/-- A concrete two-column, twelve-row backend result. -/
def res12 : RawResult :=
  { columns := some [{ name := some "id", friendly_name := none },
                     { name := some "name", friendly_name := some "Name" }]
    rows := some ((List.range 12).map (fun i =>
      [("id", PyJson.num (Int.ofNat i)), ("name", PyJson.str ("u" ++ toString i))])) }

/-- A concrete two-column, two-row backend result. -/
def res2 : RawResult :=
  { columns := some [{ name := some "id", friendly_name := none },
                     { name := some "name", friendly_name := none }]
    rows := some [[("id", PyJson.num 1), ("name", PyJson.str "alice")],
                  [("id", PyJson.num 2), ("name", PyJson.str "bob")]] }

/-- A backend whose queries succeed: `"SELECT big"` yields twelve rows,
anything else two rows. -/
def qrOk : QueryRunner :=
  { run_query := fun query => if query = "SELECT big" then .ok res12 else .ok res2
    get_schema := .ok (PyJson.obj [("users", PyJson.arr [PyJson.str "id"])])
    get_table_columns := fun _ => .ok (PyJson.arr [PyJson.str "id"])
    get_table_types := fun _ => .ok (PyJson.arr [PyJson.str "integer"]) }

/-- A startup environment with no database kind anywhere (no `--db-type`
flag and `DB_TYPE` unset) but a valid `DB_CONFIG`. -/
def envMissingKind : StartupEnv :=
  { cli_db_type := none, cli_db_config := none, env_db_type := none,
    env_db_config := some "\x7b\"host\": \"localhost\"\x7d" }

/-- A startup environment with nothing supplied at all. -/
def envAllUnset : StartupEnv :=
  { cli_db_type := none, cli_db_config := none, env_db_type := none,
    env_db_config := none }

/-- C1, counterexample: with no database kind supplied anywhere but a valid
`DB_CONFIG`, the server does NOT exit — `os.getenv("DB_TYPE", "pg")`
defaults the kind to `"pg"` and startup proceeds to a running server, so a
missing database kind alone does not produce the claimed non-zero exit. -/
theorem startup_missing_dbtype_only_runs :
    server_startup envMissingKind =
      StartupResult.running "pg" (PyJson.obj [("host", PyJson.str "localhost")]) ∧
    ∀ code usage_printed,
      server_startup envMissingKind ≠ StartupResult.exited code usage_printed := by
  have h1 : server_startup envMissingKind =
      StartupResult.running "pg" (PyJson.obj [("host", PyJson.str "localhost")]) := rfl
  refine ⟨h1, fun code usage_printed h => ?_⟩
  rw [h1] at h
  exact StartupResult.noConfusion h

/-- C1, amended: whenever the effective database configuration string (the
`--db-config` flag when truthy, else `DB_CONFIG`, else `""`) fails to parse
as JSON or parses to a falsy value, or the effective database type is the
empty string, the server process prints the usage text and exits with status
1 before any protocol session exists.  (A missing database kind alone is
defaulted to `"pg"` and does not cause an exit.) -/
theorem startup_invalid_or_missing_config_exits (env : StartupEnv)
    (h : (∃ m, json_loads (effective_db_config_str env) = .error m) ∨
         (∃ v, json_loads (effective_db_config_str env) = .ok v ∧ pyTruthy v = false) ∨
         effective_db_type env = "") :
    server_startup env = StartupResult.exited 1 true := by
  rcases h with ⟨m, hm⟩ | ⟨v, hv, hfv⟩ | hty
  · simp [server_startup, init_query_runner, hm]
  · simp [server_startup, init_query_runner, hv, hfv]
  · cases hj : json_loads (effective_db_config_str env) with
    | error m => simp [server_startup, init_query_runner, hj]
    | ok v => simp [server_startup, init_query_runner, hj, hty]

/-- C1, witness: with nothing supplied at all the effective configuration
string is `""`, `json.loads` fails, and startup exits with status 1. -/
theorem startup_invalid_or_missing_config_exits_witness :
    (∃ m, json_loads (effective_db_config_str envAllUnset) = .error m) ∧
    server_startup envAllUnset = StartupResult.exited 1 true :=
  ⟨⟨"expecting value", rfl⟩,
    startup_invalid_or_missing_config_exits envAllUnset
      (Or.inl ⟨"expecting value", rfl⟩)⟩

/-- C5: whenever the session's query history is empty, `get_query_history`
returns the fixed fallback message. -/
theorem get_query_history_empty_message (ctx : DbContext)
    (h : ctx.query_history = []) :
    get_query_history ctx = "No queries have been executed yet." := by
  simp [get_query_history, h]

/-- C5, witness: the fresh context has an empty history and gets the
fallback message. -/
theorem get_query_history_empty_message_witness :
    DbContext.query_history {} = [] ∧
    get_query_history {} = "No queries have been executed yet." :=
  ⟨rfl, get_query_history_empty_message {} rfl⟩

/-- C6: when the backend raises on a query, `execute_query` returns (rather
than raises) a text beginning with the literal prefix
`"Error executing query:"`. -/
theorem execute_query_error_message_on_failure
    (qr : QueryRunner) (query e : String) (ctx : DbContext)
    (h : qr.run_query query = .error e) :
    (execute_query qr query ctx).1 = "Error executing query: " ++ e ∧
    ∃ rest, (execute_query qr query ctx).1 = "Error executing query:" ++ rest := by
  have h1 : (execute_query qr query ctx).1 = "Error executing query: " ++ e := by
    simp [execute_query, execute_and_get_results, h]
  have h2 : ("Error executing query: " : String) = "Error executing query:" ++ " " := by
    decide
  refine ⟨h1, " " ++ e, ?_⟩
  rw [h1, h2, String.append_assoc]

/-- C6, witness: the always-failing backend yields the error text on a
concrete query. -/
theorem execute_query_error_message_on_failure_witness :
    qrFail.run_query "SELECT 1" = .error "boom" ∧
    ((execute_query qrFail "SELECT 1" {}).1 = "Error executing query: " ++ "boom" ∧
     ∃ rest, (execute_query qrFail "SELECT 1" {}).1 = "Error executing query:" ++ rest) :=
  ⟨rfl, execute_query_error_message_on_failure qrFail "SELECT 1" "boom" {} rfl⟩

/-- C9: if any of the three language-model environment variables is unset or
empty, the client module raises `ValueError` at the environment check —
before `server_params`, the model, or `run_agent` are ever constructed, so
before any server subprocess or protocol session. -/
theorem client_missing_env_raises (env : ClientEnv)
    (h : env.openai_model_name = none ∨ env.openai_model_name = some "" ∨
         env.openai_api_base = none ∨ env.openai_api_base = some "" ∨
         env.openai_api_key = none ∨ env.openai_api_key = some "") :
    client_startup env =
      .error "Missing required environment variables. Please check your .env file." := by
  rcases h with h | h | h | h | h | h <;>
    simp [client_startup, pyTruthyOptStr, h]

/-- C9, witness: an unset API key makes the client raise. -/
theorem client_missing_env_raises_witness :
    ClientEnv.openai_api_key
        { openai_model_name := some "gpt", openai_api_base := some "http://x",
          openai_api_key := none } = none ∧
    client_startup
        { openai_model_name := some "gpt", openai_api_base := some "http://x",
          openai_api_key := none } =
      .error "Missing required environment variables. Please check your .env file." :=
  ⟨rfl, client_missing_env_raises _
    (Or.inr (Or.inr (Or.inr (Or.inr (Or.inl rfl)))))⟩

/-- C10: when the backend raises on a query, both `execute_query` and
`execute_query_json` leave the session context unchanged — `last_query`,
`last_result` and `query_history` are assigned only after `run_query`
returns successfully. -/
theorem failed_query_leaves_context_unchanged
    (qr : QueryRunner) (query e : String) (ctx : DbContext)
    (h : qr.run_query query = .error e) :
    (execute_query qr query ctx).2 = ctx ∧
    (execute_query_json qr query ctx).2 = ctx := by
  constructor <;>
    simp [execute_query, execute_query_json, execute_and_get_results, h]

/-- On a successful backend call, `execute_query` returns the rendered
markdown table — header, separator, the first ten rendered rows, and the
row-count note exactly when more than ten rows exist — together with the
updated session context. -/
theorem execute_query_ok_eq
    (qr : QueryRunner) (query : String) (ctx : DbContext) (result : RawResult)
    (h : qr.run_query query = .ok result) :
    execute_query qr query ctx =
      ((if (result.rows.getD []).length > 10 then
          header_of result ++ "\n" ++ separator_of result ++ "\n" ++
            String.intercalate "\n" ((rendered_rows result).take 10) ++
            "\n\n... and " ++ toString ((result.rows.getD []).length - 10) ++
            " more rows (total: " ++ toString (result.rows.getD []).length ++ ")"
        else
          header_of result ++ "\n" ++ separator_of result ++ "\n" ++
            String.intercalate "\n" ((rendered_rows result).take 10)),
       { last_query := some query, last_result := some result,
         query_history := ctx.query_history ++ [query] }) := by
  simp only [execute_query, execute_and_get_results, h]
  simp only [rendered_rows, ← List.map_take, List.map_map]
  rfl

/-- C2: on a backend result with more than ten rows, `execute_query` renders
exactly the first ten data rows followed by the note giving the number of
additional rows and the true total; with ten or fewer rows it renders all of
them and appends no note. -/
theorem execute_query_truncates_to_ten_rows_with_note
    (qr : QueryRunner) (query : String) (ctx : DbContext) (result : RawResult)
    (h : qr.run_query query = .ok result) :
    ((result.rows.getD []).length > 10 →
      (execute_query qr query ctx).1 =
        header_of result ++ "\n" ++ separator_of result ++ "\n" ++
          String.intercalate "\n" ((rendered_rows result).take 10) ++
          "\n\n... and " ++ toString ((result.rows.getD []).length - 10) ++
          " more rows (total: " ++ toString (result.rows.getD []).length ++ ")" ∧
      ((rendered_rows result).take 10).length = 10) ∧
    ((result.rows.getD []).length ≤ 10 →
      (execute_query qr query ctx).1 =
        header_of result ++ "\n" ++ separator_of result ++ "\n" ++
          String.intercalate "\n" (rendered_rows result)) := by
  have key := execute_query_ok_eq qr query ctx result h
  have hlen : (rendered_rows result).length = (result.rows.getD []).length := by
    simp [rendered_rows]
  constructor
  · intro hn
    refine ⟨?_, ?_⟩
    · rw [key]
      simp only [if_pos hn]
    · simp [List.length_take, hlen]
      omega
  · intro hn
    rw [key]
    simp only [if_neg (by omega : ¬ (result.rows.getD []).length > 10)]
    rw [List.take_of_length_le (by omega : (rendered_rows result).length ≤ 10)]

/-- C2, witness: a twelve-row result is rendered as ten rows plus the
`"... and 2 more rows (total: 12)"` note. -/
theorem execute_query_truncates_to_ten_rows_with_note_witness :
    qrOk.run_query "SELECT big" = .ok res12 ∧
    (res12.rows.getD []).length > 10 ∧
    ((execute_query qrOk "SELECT big" {}).1 =
        header_of res12 ++ "\n" ++ separator_of res12 ++ "\n" ++
          String.intercalate "\n" ((rendered_rows res12).take 10) ++
          "\n\n... and " ++ toString ((res12.rows.getD []).length - 10) ++
          " more rows (total: " ++ toString (res12.rows.getD []).length ++ ")" ∧
      ((rendered_rows res12).take 10).length = 10) :=
  ⟨rfl, by decide,
    (execute_query_truncates_to_ten_rows_with_note qrOk "SELECT big" {} res12 rfl).1
      (by decide)⟩

/-- C3: `execute_query_json` serializes the friendly column names, the
complete untruncated list of raw row dictionaries in backend order, and a
`row_count` equal to the number of rows in the backend's raw result. -/
theorem execute_query_json_full_rows_and_count
    (qr : QueryRunner) (query : String) (ctx : DbContext) (result : RawResult)
    (h : qr.run_query query = .ok result) :
    (execute_query_json qr query ctx).1 =
      json_dumps (PyJson.obj
        [("columns", PyJson.arr ((column_names_of result).map PyJson.str)),
         ("rows", PyJson.arr ((result.rows.getD []).map rowToJson)),
         ("row_count", PyJson.num (Int.ofNat (result.rows.getD []).length))]) := by
  simp only [execute_query_json, execute_and_get_results, h]
  rfl

/-- C3, witness: the twelve-row result is serialized without truncation. -/
theorem execute_query_json_full_rows_and_count_witness :
    qrOk.run_query "SELECT big" = .ok res12 ∧
    (execute_query_json qrOk "SELECT big" {}).1 =
      json_dumps (PyJson.obj
        [("columns", PyJson.arr ((column_names_of res12).map PyJson.str)),
         ("rows", PyJson.arr ((res12.rows.getD []).map rowToJson)),
         ("row_count", PyJson.num (Int.ofNat (res12.rows.getD []).length))]) :=
  ⟨rfl, execute_query_json_full_rows_and_count qrOk "SELECT big" {} res12 rfl⟩

/-- C8: `execute_query`'s output opens with the header line: the column
names in the backend's declared order, each the friendly name when present,
else the raw name, else the empty string. -/
theorem execute_query_header_order_and_fallback
    (qr : QueryRunner) (query : String) (ctx : DbContext) (result : RawResult)
    (h : qr.run_query query = .ok result) :
    ∃ rest, (execute_query qr query ctx).1 =
      String.intercalate " | " ((result.columns.getD []).map
        (fun col => col.friendly_name.getD (col.name.getD ""))) ++ "\n" ++ rest := by
  have key := execute_query_ok_eq qr query ctx result h
  by_cases hn : (result.rows.getD []).length > 10
  · refine ⟨separator_of result ++ "\n" ++
      String.intercalate "\n" ((rendered_rows result).take 10) ++
      "\n\n... and " ++ toString ((result.rows.getD []).length - 10) ++
      " more rows (total: " ++ toString ((result.rows.getD []).length) ++ ")", ?_⟩
    rw [key]
    simp only [if_pos hn]
    simp [header_of, column_names_of, String.append_assoc]
  · refine ⟨separator_of result ++ "\n" ++
      String.intercalate "\n" ((rendered_rows result).take 10), ?_⟩
    rw [key]
    simp only [if_neg hn]
    simp [header_of, column_names_of, String.append_assoc]

/-- C8, witness: on the two-row result the header is built from the
name/friendly-name fallback chain in declared order. -/
theorem execute_query_header_order_and_fallback_witness :
    qrOk.run_query "SELECT id, name FROM users" = .ok res2 ∧
    ∃ rest, (execute_query qrOk "SELECT id, name FROM users" {}).1 =
      String.intercalate " | " ((res2.columns.getD []).map
        (fun col => col.friendly_name.getD (col.name.getD ""))) ++ "\n" ++ rest :=
  ⟨rfl, execute_query_header_order_and_fallback qrOk "SELECT id, name FROM users" {}
    res2 rfl⟩

/-- C4: the query history only grows — each successful `execute_query` /
`execute_query_json` appends exactly the executed query to its end, every
call leaves the previous history as a prefix, and after running Q1, Q2, Q3
in sequence `get_query_history` renders exactly those three queries as
bullet lines in execution order. -/
theorem query_history_append_only_and_ordered (qr : QueryRunner) (ctx : DbContext) :
    (∀ query result, qr.run_query query = .ok result →
        (execute_query qr query ctx).2.query_history = ctx.query_history ++ [query] ∧
        (execute_query_json qr query ctx).2.query_history = ctx.query_history ++ [query]) ∧
    (∀ query, ∃ s1 s2,
        (execute_query qr query ctx).2.query_history = ctx.query_history ++ s1 ∧
        (execute_query_json qr query ctx).2.query_history = ctx.query_history ++ s2) ∧
    (∀ q1 q2 q3 r1 r2 r3,
        qr.run_query q1 = .ok r1 → qr.run_query q2 = .ok r2 → qr.run_query q3 = .ok r3 →
        get_query_history
            (execute_query qr q3
              ((execute_query qr q2 ((execute_query qr q1 ({} : DbContext)).2)).2)).2 =
          "Query history:\n- " ++ q1 ++ "\n- " ++ q2 ++ "\n- " ++ q3) := by
  have lit1 : ∀ x : String, "Query history:\n" ++ ("- " ++ x) = "Query history:\n- " ++ x := by
    intro x
    rw [← String.append_assoc,
      show ("Query history:\n" : String) ++ "- " = "Query history:\n- " from by decide]
  have lit2 : ∀ x : String, "\n" ++ ("- " ++ x) = "\n- " ++ x := by
    intro x
    rw [← String.append_assoc, show ("\n" : String) ++ "- " = "\n- " from by decide]
  refine ⟨?_, ?_, ?_⟩
  · intro query result h
    constructor <;>
      simp [execute_query, execute_query_json, execute_and_get_results, h]
  · intro query
    cases hq : qr.run_query query with
    | error e =>
      exact ⟨[], [],
        by simp [execute_query, execute_and_get_results, hq],
        by simp [execute_query_json, execute_and_get_results, hq]⟩
    | ok result =>
      exact ⟨[query], [query],
        by simp [execute_query, execute_and_get_results, hq],
        by simp [execute_query_json, execute_and_get_results, hq]⟩
  · intro q1 q2 q3 r1 r2 r3 h1 h2 h3
    have e1 : (execute_query qr q1 ({} : DbContext)).2 =
        { last_query := some q1, last_result := some r1, query_history := [q1] } := by
      simp [execute_query, execute_and_get_results, h1]
    have e2 : (execute_query qr q2
        ({ last_query := some q1, last_result := some r1,
           query_history := [q1] } : DbContext)).2 =
        { last_query := some q2, last_result := some r2,
          query_history := [q1, q2] } := by
      simp [execute_query, execute_and_get_results, h2]
    have e3 : (execute_query qr q3
        ({ last_query := some q2, last_result := some r2,
           query_history := [q1, q2] } : DbContext)).2 =
        { last_query := some q3, last_result := some r3,
          query_history := [q1, q2, q3] } := by
      simp [execute_query, execute_and_get_results, h3]
    rw [e1, e2, e3]
    simp [get_query_history, String.intercalate, String.intercalate.go,
      String.append_assoc, lit1, lit2]

/-- C4, witness: three concrete successful queries leave exactly the three
bullet lines in execution order. -/
theorem query_history_append_only_and_ordered_witness :
    get_query_history
        (execute_query qrOk "Q3"
          ((execute_query qrOk "Q2" ((execute_query qrOk "Q1" ({} : DbContext)).2)).2)).2 =
      "Query history:\n- " ++ "Q1" ++ "\n- " ++ "Q2" ++ "\n- " ++ "Q3" :=
  (query_history_append_only_and_ordered qrOk {}).2.2 "Q1" "Q2" "Q3" res2 res2 res2
    rfl rfl rfl

/-- A list is a Boolean prefix of itself followed by anything. -/
theorem isPrefixOf_append_self {α : Type} [BEq α] [LawfulBEq α] (l r : List α) :
    (l.isPrefixOf (l ++ r)) = true := by
  induction l with
  | nil => cases r with
    | nil => rfl
    | cons b bs => rfl
  | cons a l ih => simp [List.isPrefixOf, ih]

/-- C7, counterexample: `get_schema` on a failing backend returns
`"Error getting schema: boom"`, which does not carry the literal prefix
`"Error:"` — the colon comes only after the operation name, so the claimed
prefix is wrong. -/
theorem get_schema_error_not_colon_form :
    get_schema qrFail = "Error getting schema: boom" ∧
    ∀ rest, get_schema qrFail ≠ "Error:" ++ rest := by
  refine ⟨rfl, fun rest h => ?_⟩
  have h1 : (("Error:" : String).data.isPrefixOf (get_schema qrFail).data) = true := by
    rw [h, String.data_append]
    exact isPrefixOf_append_self _ _
  have h2 : (("Error:" : String).data.isPrefixOf (get_schema qrFail).data) = false := by
    decide
  rw [h1] at h2
  exact Bool.noConfusion h2

/-- C7, amended: every exposed operation catches backend exceptions
internally and returns (never raises) a human-readable text prefixed with
`"Error"` — specifically `"Error getting schema:"`,
`"Error getting columns for table T:"`, `"Error getting types for table T:"`
and `"Error executing query:"` — so the protocol layer never sees a
failure. -/
theorem operations_catch_errors_return_error_text
    (qr : QueryRunner) (e table_name query : String) (ctx : DbContext) :
    (qr.get_schema = .error e →
        get_schema qr = "Error getting schema: " ++ e ∧
        ∃ r, get_schema qr = "Error" ++ r) ∧
    (qr.get_table_columns table_name = .error e →
        get_table_columns qr table_name =
          "Error getting columns for table " ++ table_name ++ ": " ++ e ∧
        ∃ r, get_table_columns qr table_name = "Error" ++ r) ∧
    (qr.get_table_types table_name = .error e →
        get_table_types qr table_name =
          "Error getting types for table " ++ table_name ++ ": " ++ e ∧
        ∃ r, get_table_types qr table_name = "Error" ++ r) ∧
    (qr.run_query query = .error e →
        (execute_query qr query ctx).1 = "Error executing query: " ++ e ∧
        (execute_query_json qr query ctx).1 = "Error executing query: " ++ e ∧
        ∃ r s, (execute_query qr query ctx).1 = "Error" ++ r ∧
          (execute_query_json qr query ctx).1 = "Error" ++ s) := by
  refine ⟨fun h => ?_, fun h => ?_, fun h => ?_, fun h => ?_⟩
  · have h1 : get_schema qr = "Error getting schema: " ++ e := by
      simp [get_schema, h]
    refine ⟨h1, " getting schema: " ++ e, ?_⟩
    rw [h1, show ("Error getting schema: " : String) = "Error" ++ " getting schema: "
      from by decide, String.append_assoc]
  · have h1 : get_table_columns qr table_name =
        "Error getting columns for table " ++ table_name ++ ": " ++ e := by
      simp [get_table_columns, h]
    refine ⟨h1, " getting columns for table " ++ table_name ++ ": " ++ e, ?_⟩
    rw [h1, show ("Error getting columns for table " : String) =
      "Error" ++ " getting columns for table " from by decide]
    simp only [String.append_assoc]
  · have h1 : get_table_types qr table_name =
        "Error getting types for table " ++ table_name ++ ": " ++ e := by
      simp [get_table_types, h]
    refine ⟨h1, " getting types for table " ++ table_name ++ ": " ++ e, ?_⟩
    rw [h1, show ("Error getting types for table " : String) =
      "Error" ++ " getting types for table " from by decide]
    simp only [String.append_assoc]
  · have h1 : (execute_query qr query ctx).1 = "Error executing query: " ++ e := by
      simp [execute_query, execute_and_get_results, h]
    have h2 : (execute_query_json qr query ctx).1 = "Error executing query: " ++ e := by
      simp [execute_query_json, execute_and_get_results, h]
    refine ⟨h1, h2, " executing query: " ++ e, " executing query: " ++ e, ?_, ?_⟩
    · rw [h1, show ("Error executing query: " : String) = "Error" ++ " executing query: "
        from by decide, String.append_assoc]
    · rw [h2, show ("Error executing query: " : String) = "Error" ++ " executing query: "
        from by decide, String.append_assoc]

/-- C7, witness: the always-failing backend exercises every operation's
error branch. -/
theorem operations_catch_errors_return_error_text_witness :
    qrFail.get_schema = .error "boom" ∧
    (get_schema qrFail = "Error getting schema: " ++ "boom" ∧
     ∃ r, get_schema qrFail = "Error" ++ r) ∧
    (get_table_columns qrFail "users" =
        "Error getting columns for table " ++ "users" ++ ": " ++ "boom" ∧
     ∃ r, get_table_columns qrFail "users" = "Error" ++ r) ∧
    (get_table_types qrFail "users" =
        "Error getting types for table " ++ "users" ++ ": " ++ "boom" ∧
     ∃ r, get_table_types qrFail "users" = "Error" ++ r) ∧
    ((execute_query qrFail "SELECT 1" {}).1 = "Error executing query: " ++ "boom" ∧
     (execute_query_json qrFail "SELECT 1" {}).1 = "Error executing query: " ++ "boom" ∧
     ∃ r s, (execute_query qrFail "SELECT 1" {}).1 = "Error" ++ r ∧
       (execute_query_json qrFail "SELECT 1" {}).1 = "Error" ++ s) :=
  ⟨rfl,
    (operations_catch_errors_return_error_text qrFail "boom" "users" "SELECT 1" {}).1 rfl,
    (operations_catch_errors_return_error_text qrFail "boom" "users" "SELECT 1" {}).2.1 rfl,
    (operations_catch_errors_return_error_text qrFail "boom" "users" "SELECT 1" {}).2.2.1 rfl,
    (operations_catch_errors_return_error_text qrFail "boom" "users" "SELECT 1" {}).2.2.2 rfl⟩

/-- C10, witness: a failing query leaves a non-trivial concrete context
exactly as it was. -/
theorem failed_query_leaves_context_unchanged_witness :
    qrFail.run_query "DROP TABLE t" = .error "boom" ∧
    ((execute_query qrFail "DROP TABLE t"
        { last_query := some "old", last_result := none,
          query_history := ["old"] }).2 =
      { last_query := some "old", last_result := none, query_history := ["old"] } ∧
     (execute_query_json qrFail "DROP TABLE t"
        { last_query := some "old", last_result := none,
          query_history := ["old"] }).2 =
      { last_query := some "old", last_result := none, query_history := ["old"] }) :=
  ⟨rfl, failed_query_leaves_context_unchanged qrFail "DROP TABLE t" "boom" _ rfl⟩

end MCPServer
